import Mathlib

/-!
Verification of the glam-ai repository against its specification.

The repository is a small full-stack application: a React frontend
(frontend/src/components and frontend/src/services/api.js) talking to a
FastAPI backend whose handlers appear in backend/main.py (reproduced in
DEPLOYMENT_GUIDE.md).  This file gives a shallow embedding of the pieces
the claims are about:

* the backend combined endpoint `analyze_and_recommend`, the guarded
  per-request cleanup `cleanup_file`, and the body of one pass of the
  `periodic_cleanup` background sweep, with the filesystem modelled as a
  `Finset String` of existing paths (the sweep additionally tracks
  modification times, so it acts on a `List (String × Nat)`);
* the frontend API layer: the axios instance configuration, the request
  each exported operation issues, and the `retryRequest` backoff helper
  (delays modelled exactly as rationals, attempts indexed by a function
  `Nat → Except JsError α` standing for the successive outcomes of `fn`);
* the `FileUpload` component's `validateFile` / `handleFileUpload`, the
  App component's `handleAnalyze` state transition, and `ImagePreview`'s
  `formatFileSize` (whose `Math.floor(Math.log bytes / Math.log 1024)`
  is, in exact arithmetic, `Nat.log 1024 bytes`; the bridging equation
  with the real-number formula is proved below).
-/

namespace GlamAI

/-- A JavaScript error value as the frontend sees it: a `message` and the
optional axios `code` field (for example ERR_NETWORK or ECONNABORTED). -/
structure JsError where
  message : String
  code : Option String
  deriving DecidableEq, Repr

/-- The JSON object returned by the combined backend endpoint.  The source
returns either the dict with keys analysis, recommendations, status, or the
dict with keys error, status; both shapes live in this one record, a key
that is absent from the returned dict being `none`. -/
structure JsonResponse (α β : Type) where
  analysis? : Option α
  recommendations? : Option β
  error? : Option String
  status : String
  deriving DecidableEq, Repr

/-- Embeds `cleanup_file` from backend/main.py (and the identical guarded
remove in the `finally` block of the combined endpoint): delete the path
only when it exists, never raising.  The optional sleep before deletion
does not change which files remain, so it is not modelled. -/
def cleanup_file (fs : Finset String) (file_path : String) : Finset String :=
  if file_path ∈ fs then fs.erase file_path else fs

/-- Embeds the `analyze_and_recommend` handler from backend/main.py.  The
outcomes of the two external calls (`face_analyzer.analyze_face` and
`claude_client.get_recommendations`) are inputs: `Except.error e` stands
for the call raising an exception rendered as the string `e`.  The `try`
body builds the success dict from the two results, the `except` arm turns
any exception into the error dict, and the `finally` arm performs the
guarded delete of `uploads/{file_id}`. -/
def analyze_and_recommend {α β : Type} (fs : Finset String) (file_id : String)
    (analyzeResult : Except String α) (recommendResult : Except String β) :
    JsonResponse α β × Finset String :=
  let temp_path := "uploads/" ++ file_id
  let response : JsonResponse α β :=
    match analyzeResult with
    | .error e => ⟨none, none, some e, "error"⟩
    | .ok analysis_result =>
      match recommendResult with
      | .error e => ⟨none, none, some e, "error"⟩
      | .ok recommendations => ⟨some analysis_result, some recommendations, none, "success"⟩
  (response, cleanup_file fs temp_path)

/-- Embeds one pass of the loop body of `periodic_cleanup` from
backend/main.py: every file in the uploads directory whose modification
time is older than `now - 300` is removed.  The directory is a list of
(path, mtime) pairs; `os.listdir` only yields existing files, so each
removal acts on a present entry. -/
def periodic_cleanup_sweep (uploads : List (String × Nat)) (now : Nat) :
    List (String × Nat) :=
  uploads.filter fun f => ¬ (f.2 < now - 300)

/-- The `timeout` field of the axios instance created in
frontend/src/services/api.js. -/
def apiTimeout : Nat := 30000

/-- HTTP method of a frontend request. -/
inductive Method
  | get
  | post
  | delete
  deriving DecidableEq, Repr

/-- The kind of body a frontend request carries: `empty` for `post(url,
null, ...)` and bodyless requests, `multipartFile` for the FormData
carrying the uploaded file, `jsonAnalysis` for the analysis object posted
as JSON. -/
inductive RequestBody
  | empty
  | multipartFile
  | jsonAnalysis
  deriving DecidableEq, Repr

/-- One HTTP request as issued through the shared axios instance `api`:
method, path, query parameters, body kind, and the timeout inherited from
the instance configuration. -/
structure Request where
  method : Method
  path : String
  params : List (String × String)
  body : RequestBody
  timeout : Nat
  deriving DecidableEq, Repr

/-- The request issued by `uploadFile`: POST /upload with multipart form
data. -/
def uploadFileRequest : Request :=
  ⟨.post, "/upload", [], .multipartFile, apiTimeout⟩

/-- The request issued by `analyzeImage`: POST /analyze with a `file_id`
query parameter and a null body. -/
def analyzeImageRequest (fileId : String) : Request :=
  ⟨.post, "/analyze", [("file_id", fileId)], .empty, apiTimeout⟩

/-- The request issued by `getRecommendations`: POST /recommend with the
analysis data as the JSON body. -/
def getRecommendationsRequest : Request :=
  ⟨.post, "/recommend", [], .jsonAnalysis, apiTimeout⟩

/-- The request issued by each attempt inside `analyzeAndRecommend`:
POST /analyze-and-recommend with a `file_id` query parameter and a null
body. -/
def analyzeAndRecommendRequest (fileId : String) : Request :=
  ⟨.post, "/analyze-and-recommend", [("file_id", fileId)], .empty, apiTimeout⟩

/-- The request issued by `cleanupFile`: DELETE /cleanup/{file_id}. -/
def cleanupFileRequest (fileId : String) : Request :=
  ⟨.delete, "/cleanup/" ++ fileId, [], .empty, apiTimeout⟩

/-- The request issued by `healthCheck`: GET /. -/
def healthCheckRequest : Request :=
  ⟨.get, "/", [], .empty, apiTimeout⟩

/-- The six operations exported by frontend/src/services/api.js, in source
order, each with the request it issues. -/
def apiSurface (fileId : String) : List Request :=
  [uploadFileRequest, analyzeImageRequest fileId, getRecommendationsRequest,
   analyzeAndRecommendRequest fileId, cleanupFileRequest fileId, healthCheckRequest]

/-- The retryability test of `retryRequest`: the caught error's code is
ERR_NETWORK or ECONNABORTED. -/
def retryable (e : JsError) : Bool :=
  e.code == some "ERR_NETWORK" || e.code == some "ECONNABORTED"

/-- Embeds `retryRequest` from frontend/src/services/api.js.  The wrapped
function `fn` is modelled by the outcome of each of its successive calls:
`fn attempt` is what the call made on attempt number `attempt` (0-based)
returns.  The result pairs the final outcome with the list of backoff
delays slept, in order; delays are exact rationals, `delay * (3 / 2)`
embedding the source's `delay * 1.5`. -/
def retryRequest {α : Type} (fn : Nat → Except JsError α) :
    Nat → ℚ → Nat → Except JsError α × List ℚ
  | retries, delay, attempt =>
    match fn attempt with
    | .ok v => (.ok v, [])
    | .error e =>
      match retries with
      | 0 => (.error e, [])
      | r + 1 =>
        if retryable e then
          let rest := retryRequest fn r (delay * (3 / 2)) (attempt + 1)
          (rest.1, delay :: rest.2)
        else
          (.error e, [])

/-- Embeds `analyzeAndRecommend` from frontend/src/services/api.js: the
POST to the combined endpoint wrapped in `retryRequest` with its default
arguments, 2 retries and an initial delay of 2000 ms. -/
def analyzeAndRecommendCall {α : Type} (fn : Nat → Except JsError α) :
    Except JsError α × List ℚ :=
  retryRequest fn 2 2000 0

/-- A file as the browser hands it to the upload component: name, MIME
type, size in bytes. -/
structure FileV where
  name : String
  type : String
  size : Nat
  deriving DecidableEq, Repr

/-- The 10MB limit of `validateFile` in FileUpload.jsx. -/
def maxSize : Nat := 10 * 1024 * 1024

/-- The MIME-type test `file.type.startsWith('image/')` of `validateFile`,
embedded at the character level: the characters of `image/` are a prefix
of the characters of the type string (`String.startsWith` itself is a
byte-position loop the kernel cannot evaluate; on strings the two agree
character for character). -/
def isImageMime (t : String) : Bool := "image/".toList.isPrefixOf t.toList

/-- Embeds `validateFile` from FileUpload.jsx: throws on a non-image MIME
type, then on a size above `maxSize`, otherwise returns. -/
def validateFile (file : FileV) : Except String Unit :=
  if ¬ isImageMime file.type then
    .error "Please select an image file"
  else if file.size > maxSize then
    .error "File size must be less than 10MB"
  else
    .ok ()

/-- Outcome of `handleFileUpload` in FileUpload.jsx: the error message it
displays, if any, and the arguments `onFileUpload` was invoked with, if it
was. -/
structure UploadHandlerResult where
  errorMsg : Option String
  callback : Option (FileV × String)
  deriving DecidableEq, Repr

/-- Embeds `handleFileUpload` from FileUpload.jsx.  `upload` is the
outcome of the `uploadFile` network call, resolving to the `file_id` of
the response; it is only reached when validation passed.  A throw from
`validateFile` or a rejection of `uploadFile` lands in the `catch` arm,
which records the message and never invokes `onFileUpload`. -/
def handleFileUpload (file : FileV) (upload : Except JsError String) :
    UploadHandlerResult :=
  match validateFile file with
  | .error m => ⟨some m, none⟩
  | .ok _ =>
    match upload with
    | .error e => ⟨some e.message, none⟩
    | .ok file_id => ⟨none, some (file, file_id)⟩

/-- The App component state in src/App.jsx (the seven useState hooks). -/
structure AppState (α β : Type) where
  uploadedFile : Option FileV
  fileId : Option String
  analysisData : Option α
  recommendations : Option β
  loading : Bool
  error : Option String
  currentStep : String
  deriving DecidableEq, Repr

/-- The message `handleAnalyze` displays for a rejection: JavaScript's
`err.message || fallback`, the empty message being falsy. -/
def jsErrMessage (e : JsError) : String :=
  if e.message = "" then "Analysis failed. Please try again." else e.message

/-- Embeds `handleAnalyze` from src/App.jsx.  `outcome` is how the
`analyzeAndRecommend(fileId)` promise settles: `.ok result` a resolution
with the response data, `.error err` a rejection.  With a null `fileId`
the handler returns before touching any state. -/
def handleAnalyze {α β : Type} (s : AppState α β)
    (outcome : Except JsError (JsonResponse α β)) : AppState α β :=
  match s.fileId with
  | none => s
  | some _ =>
    let s1 := { s with loading := true, error := none, currentStep := "analysis" }
    match outcome with
    | .ok result =>
      { s1 with analysisData := result.analysis?,
                recommendations := result.recommendations?,
                currentStep := "results", loading := false }
    | .error err =>
      { s1 with error := some (jsErrMessage err),
                currentStep := "preview", loading := false }

/-- The unit array of `formatFileSize` in ImagePreview.jsx. -/
def sizes : List String := ["Bytes", "KB", "MB", "GB"]

/-- The unit index `Math.floor(Math.log bytes / Math.log 1024)` of
`formatFileSize`, in exact arithmetic: the floor of the base-1024
logarithm of `bytes`, which on naturals is `Nat.log 1024`.  The theorem
`floor_logb_eq_fileSizeIndex` below proves the agreement with the
real-number formula. -/
def fileSizeIndex (bytes : Nat) : Nat := Nat.log 1024 bytes

/-- Rounding to two decimals, embedding `parseFloat(x.toFixed 2)` on an
exact rational. -/
def roundTo2 (q : ℚ) : ℚ := ((round (q * 100) : ℤ) : ℚ) / 100

/-- Embeds `formatFileSize` from ImagePreview.jsx.  The rendered string
is represented structurally as the pair of the displayed number and the
looked-up unit: `bytes = 0` short-circuits to `0 Bytes`, otherwise the
number is `bytes / 1024 ^ i` rounded to two decimals and the unit is
`sizes[i]`, which is `none` exactly when the index falls outside the
array (JavaScript would render `undefined` there). -/
def formatFileSize (bytes : Nat) : ℚ × Option String :=
  if bytes = 0 then (0, some "Bytes")
  else
    let i := fileSizeIndex bytes
    (roundTo2 ((bytes : ℚ) / (1024 : ℚ) ^ i), sizes[i]?)

/-- Filtering a list twice by the same predicate equals filtering once. -/
theorem filter_filter_self {α : Type} (p : α → Bool) (l : List α) :
    (l.filter p).filter p = l.filter p := by
  induction l with
  | nil => rfl
  | cons a t ih => by_cases h : p a <;> simp [List.filter_cons, h, ih]

/-- C1: for every invocation of the combined analyze-and-recommend handler
with an existing uploaded file, the uploaded temporary file
`uploads/{file_id}` is deleted from disk by the time the handler
completes, whatever the outcomes of the analysis and recommendation
calls, so both the success path and the error path delete it. -/
theorem analyze_and_recommend_deletes_upload {α β : Type} (fs : Finset String)
    (file_id : String) (ar : Except String α) (rr : Except String β)
    (h : ("uploads/" ++ file_id) ∈ fs) :
    ("uploads/" ++ file_id) ∉ (analyze_and_recommend fs file_id ar rr).2 := by
  simp [analyze_and_recommend, cleanup_file, h, Finset.not_mem_erase]

/-- Witness for C1: a concrete filesystem holding the uploaded file, on
which the handler deletes it. -/
theorem analyze_and_recommend_deletes_upload_witness :
    ("uploads/" ++ "abc") ∈ ({"uploads/abc"} : Finset String)
    ∧ ("uploads/" ++ "abc") ∉
        (analyze_and_recommend (α := Nat) (β := Nat) {"uploads/abc"} "abc"
          (.ok 1) (.ok 2)).2 :=
  ⟨by decide, analyze_and_recommend_deletes_upload _ _ _ _ (by decide)⟩

/-- C5: every exception raised inside the combined handler is caught at the
endpoint boundary and returned as the JSON error object with a status
field (status "error" and the error message), and every response of the
handler carries status "success" or "error" — no exception propagates. -/
theorem analyze_and_recommend_catches_errors {α β : Type} (fs : Finset String)
    (file_id : String) (e : String) (a : α)
    (ar : Except String α) (rr rr' : Except String β) :
    (analyze_and_recommend fs file_id (.error e : Except String α) rr').1
        = ⟨none, none, some e, "error"⟩
    ∧ (analyze_and_recommend fs file_id (.ok a) (.error e : Except String β)).1
        = ⟨none, none, some e, "error"⟩
    ∧ ((analyze_and_recommend fs file_id ar rr).1.status = "success"
        ∨ (analyze_and_recommend fs file_id ar rr).1.status = "error") := by
  refine ⟨by simp [analyze_and_recommend], by simp [analyze_and_recommend], ?_⟩
  cases ar <;> cases rr <;> simp [analyze_and_recommend]

/-- C6: file deletion is idempotent: the guarded per-request cleanup
applied twice to the same path equals applying it once, deleting an
already-deleted path is a no-op raising no error, and one pass of the
periodic background sweep applied twice equals applying it once. -/
theorem cleanup_idempotent (fs : Finset String) (p : String)
    (uploads : List (String × Nat)) (now : Nat) :
    cleanup_file (cleanup_file fs p) p = cleanup_file fs p
    ∧ (p ∉ fs → cleanup_file fs p = fs)
    ∧ periodic_cleanup_sweep (periodic_cleanup_sweep uploads now) now
        = periodic_cleanup_sweep uploads now := by
  refine ⟨?_, fun h => by simp [cleanup_file, h], filter_filter_self _ _⟩
  by_cases h : p ∈ fs
  · simp [cleanup_file, h, Finset.not_mem_erase]
  · simp [cleanup_file, h]

/-- Witness for C6: concrete uploads directory states, including a delete
of an absent path. -/
theorem cleanup_idempotent_witness :
    cleanup_file (cleanup_file {"uploads/a"} "uploads/a") "uploads/a"
        = cleanup_file {"uploads/a"} "uploads/a"
    ∧ cleanup_file {"uploads/a"} "uploads/b" = {"uploads/a"}
    ∧ periodic_cleanup_sweep (periodic_cleanup_sweep [("uploads/a", 10)] 1000) 1000
        = periodic_cleanup_sweep [("uploads/a", 10)] 1000 :=
  ⟨(cleanup_idempotent {"uploads/a"} "uploads/a" [("uploads/a", 10)] 1000).1,
   (cleanup_idempotent {"uploads/a"} "uploads/b" [] 0).2.1 (by decide),
   (cleanup_idempotent {"uploads/a"} "uploads/a" [("uploads/a", 10)] 1000).2.2⟩

/-- Unfolding `retryRequest` when the current attempt succeeds. -/
theorem retryRequest_ok {α : Type} (fn : Nat → Except JsError α)
    (retries : Nat) (delay : ℚ) (attempt : Nat) (v : α)
    (h : fn attempt = .ok v) :
    retryRequest fn retries delay attempt = (.ok v, []) := by
  rw [retryRequest, h]

/-- Unfolding `retryRequest` when the current attempt fails and no retries
remain. -/
theorem retryRequest_exhausted {α : Type} (fn : Nat → Except JsError α)
    (delay : ℚ) (attempt : Nat) (e : JsError)
    (h : fn attempt = .error e) :
    retryRequest fn 0 delay attempt = (.error e, []) := by
  rw [retryRequest, h]

/-- Unfolding `retryRequest` when the current attempt fails with a
non-retryable error: the error is rethrown immediately, with no sleep. -/
theorem retryRequest_noRetry {α : Type} (fn : Nat → Except JsError α)
    (retries : Nat) (delay : ℚ) (attempt : Nat) (e : JsError)
    (h : fn attempt = .error e) (hr : retryable e = false) :
    retryRequest fn retries delay attempt = (.error e, []) := by
  cases retries with
  | zero => rw [retryRequest, h]
  | succ r => rw [retryRequest, h]; simp [hr]

/-- Unfolding `retryRequest` when the current attempt fails with a
retryable error and retries remain: sleep `delay`, then recurse with one
retry fewer and the delay multiplied by 3/2. -/
theorem retryRequest_retry {α : Type} (fn : Nat → Except JsError α)
    (r : Nat) (delay : ℚ) (attempt : Nat) (e : JsError)
    (h : fn attempt = .error e) (hr : retryable e = true) :
    retryRequest fn (r + 1) delay attempt =
      ((retryRequest fn r (delay * (3 / 2)) (attempt + 1)).1,
       delay :: (retryRequest fn r (delay * (3 / 2)) (attempt + 1)).2) := by
  rw [retryRequest, h]; simp [hr]

/-- The delays slept by `analyzeAndRecommendCall` are a prefix of
[2000, 3000]: the initial delay of 2000 multiplied by 1.5 on the
successive retry, and never more than two sleeps. -/
theorem analyzeAndRecommendCall_delays {α : Type} (fn : Nat → Except JsError α) :
    (retryRequest fn 2 2000 0).2 = []
    ∨ (retryRequest fn 2 2000 0).2 = [2000]
    ∨ (retryRequest fn 2 2000 0).2 = [(2000 : ℚ), 3000] := by
  have h32 : (2000 : ℚ) * (3 / 2) = 3000 := by norm_num
  have h32' : (3000 : ℚ) * (3 / 2) = 4500 := by norm_num
  cases h0 : fn 0 with
  | ok v => left; rw [retryRequest_ok fn 2 2000 0 v h0]
  | error e0 =>
    cases hr0 : retryable e0 with
    | false => left; rw [retryRequest_noRetry fn 2 2000 0 e0 h0 hr0]
    | true =>
      rw [retryRequest_retry fn 1 2000 0 e0 h0 hr0, h32]
      cases h1 : fn 1 with
      | ok v => right; left; rw [retryRequest_ok fn 1 3000 1 v h1]
      | error e1 =>
        cases hr1 : retryable e1 with
        | false => right; left; rw [retryRequest_noRetry fn 1 3000 1 e1 h1 hr1]
        | true =>
          rw [retryRequest_retry fn 0 3000 1 e1 h1 hr1, h32']
          cases h2 : fn 2 with
          | ok v => right; right; rw [retryRequest_ok fn 0 4500 2 v h2]
          | error e2 => right; right; rw [retryRequest_exhausted fn 4500 2 e2 h2]

/-- C2: the client retry helper is an exponential backoff policy for
cold-start network errors: a first-attempt failure whose code is not
ERR_NETWORK or ECONNABORTED is rethrown immediately with no sleep, a
retryable failure is retried after the 2000 ms delay with the delay
multiplied by 3/2 for the next retry, the helper sleeps (hence retries)
at most twice, and `analyzeAndRecommend` is exactly `retryRequest`
applied to the combined-endpoint call with 2 retries and initial delay
2000. -/
theorem retryRequest_policy {α : Type} (fn : Nat → Except JsError α) (e : JsError)
    (h : fn 0 = .error e) :
    analyzeAndRecommendCall fn = retryRequest fn 2 2000 0
    ∧ (retryable e = false → retryRequest fn 2 2000 0 = (.error e, []))
    ∧ (retryable e = true →
        retryRequest fn 2 2000 0 =
          ((retryRequest fn 1 (2000 * (3 / 2)) 1).1,
           2000 :: (retryRequest fn 1 (2000 * (3 / 2)) 1).2))
    ∧ (retryRequest fn 2 2000 0).2.length ≤ 2
    ∧ ((retryRequest fn 2 2000 0).2 = []
        ∨ (retryRequest fn 2 2000 0).2 = [2000]
        ∨ (retryRequest fn 2 2000 0).2 = [(2000 : ℚ), 3000]) := by
  refine ⟨rfl, fun hr => retryRequest_noRetry fn 2 2000 0 e h hr,
    fun hr => retryRequest_retry fn 1 2000 0 e h hr, ?_,
    analyzeAndRecommendCall_delays fn⟩
  rcases analyzeAndRecommendCall_delays fn with hd | hd | hd <;> rw [hd] <;> simp

/-- A permanently failing cold-start outcome, used to witness C2. -/
def coldStartError : JsError := ⟨"Network Error", some "ERR_NETWORK"⟩

/-- A wrapped call whose every attempt fails with `coldStartError`. -/
def coldStartFn : Nat → Except JsError Nat := fun _ => .error coldStartError

/-- Witness for C2: the retry policy instantiated on a call that fails
with ERR_NETWORK on every attempt. -/
theorem retryRequest_policy_witness :
    analyzeAndRecommendCall coldStartFn = retryRequest coldStartFn 2 2000 0
    ∧ (retryable coldStartError = false →
        retryRequest coldStartFn 2 2000 0 = (.error coldStartError, []))
    ∧ (retryable coldStartError = true →
        retryRequest coldStartFn 2 2000 0 =
          ((retryRequest coldStartFn 1 (2000 * (3 / 2)) 1).1,
           2000 :: (retryRequest coldStartFn 1 (2000 * (3 / 2)) 1).2))
    ∧ (retryRequest coldStartFn 2 2000 0).2.length ≤ 2
    ∧ ((retryRequest coldStartFn 2 2000 0).2 = []
        ∨ (retryRequest coldStartFn 2 2000 0).2 = [2000]
        ∨ (retryRequest coldStartFn 2 2000 0).2 = [(2000 : ℚ), 3000]) :=
  retryRequest_policy coldStartFn coldStartError rfl

/-- C3: a file offered to the upload component fails validation exactly
when its MIME type does not start with image/ or its size exceeds
10*1024*1024 bytes; whenever it is invalid the handler records an error
and never invokes `onFileUpload`, a callback invocation only happens for
a valid file, and a file of exactly 10*1024*1024 bytes with an image MIME
type passes validation. -/
theorem validateFile_spec (file : FileV) (upload : Except JsError String) :
    ((validateFile file).isOk = true ↔
      (isImageMime file.type = true ∧ file.size ≤ 10 * 1024 * 1024))
    ∧ (¬ (isImageMime file.type = true ∧ file.size ≤ 10 * 1024 * 1024) →
        (handleFileUpload file upload).callback = none
        ∧ (handleFileUpload file upload).errorMsg.isSome = true)
    ∧ ((handleFileUpload file upload).callback.isSome = true →
        isImageMime file.type = true ∧ file.size ≤ 10 * 1024 * 1024)
    ∧ (isImageMime file.type = true → file.size = 10 * 1024 * 1024 →
        validateFile file = .ok ()) := by
  by_cases ht : isImageMime file.type = true
  · by_cases hs : file.size ≤ 10 * 1024 * 1024
    · have hv : validateFile file = .ok () := by
        unfold validateFile maxSize
        rw [if_neg (by simp [ht]), if_neg (by omega)]
      refine ⟨by simp [hv, ht, hs, Except.isOk, Except.toBool], fun hcon => absurd ⟨ht, hs⟩ hcon,
        fun _ => ⟨ht, hs⟩, fun _ _ => hv⟩
    · have hv : validateFile file = .error "File size must be less than 10MB" := by
        unfold validateFile maxSize
        rw [if_neg (by simp [ht]), if_pos (by omega)]
      refine ⟨by simp [hv, hs, Except.isOk, Except.toBool], fun _ => by simp [handleFileUpload, hv],
        fun hc => ?_, fun _ hsz => absurd (le_of_eq hsz) hs⟩
      simp [handleFileUpload, hv] at hc
  · have hv : validateFile file = .error "Please select an image file" := by
      unfold validateFile
      rw [if_pos (by simp [ht])]
    refine ⟨by simp [hv, ht, Except.isOk, Except.toBool], fun _ => by simp [handleFileUpload, hv],
      fun hc => ?_, fun h1 => absurd h1 ht⟩
    simp [handleFileUpload, hv] at hc

/-- A valid upload: an image MIME type of exactly 10MB. -/
def okImage : FileV := ⟨"selfie.png", "image/png", 10 * 1024 * 1024⟩

/-- An invalid upload: an image one byte over the 10MB limit. -/
def hugeImage : FileV := ⟨"big.png", "image/png", 10 * 1024 * 1024 + 1⟩

/-- Witness for C3: the exactly-10MB image passes validation, and the
oversized image is rejected with the callback never invoked. -/
theorem validateFile_spec_witness :
    validateFile okImage = .ok ()
    ∧ (handleFileUpload hugeImage (.ok "id1")).callback = none
    ∧ (handleFileUpload hugeImage (.ok "id1")).errorMsg.isSome = true := by
  have hbig : ¬ (isImageMime hugeImage.type = true
      ∧ hugeImage.size ≤ 10 * 1024 * 1024) := by
    intro hcon
    have := hcon.2
    simp [hugeImage] at this
  refine ⟨(validateFile_spec okImage (.ok "id1")).2.2.2 (by decide) rfl,
    ((validateFile_spec hugeImage (.ok "id1")).2.1 hbig).1,
    ((validateFile_spec hugeImage (.ok "id1")).2.1 hbig).2⟩

/-- C7: the frontend API surface consists of exactly the six operations of
the spec's REST surface, each issuing the method, path, parameters and
body kind the source specifies: POST /upload multipart, POST /analyze
with a file_id query parameter, POST /recommend with the analysis body,
POST /analyze-and-recommend with a file_id query parameter,
DELETE /cleanup/{file_id}, and GET /. -/
theorem api_surface_spec (fileId : String) :
    apiSurface fileId =
      [uploadFileRequest, analyzeImageRequest fileId, getRecommendationsRequest,
       analyzeAndRecommendRequest fileId, cleanupFileRequest fileId, healthCheckRequest]
    ∧ (apiSurface fileId).length = 6
    ∧ uploadFileRequest = ⟨.post, "/upload", [], .multipartFile, apiTimeout⟩
    ∧ analyzeImageRequest fileId
        = ⟨.post, "/analyze", [("file_id", fileId)], .empty, apiTimeout⟩
    ∧ getRecommendationsRequest = ⟨.post, "/recommend", [], .jsonAnalysis, apiTimeout⟩
    ∧ analyzeAndRecommendRequest fileId
        = ⟨.post, "/analyze-and-recommend", [("file_id", fileId)], .empty, apiTimeout⟩
    ∧ cleanupFileRequest fileId = ⟨.delete, "/cleanup/" ++ fileId, [], .empty, apiTimeout⟩
    ∧ healthCheckRequest = ⟨.get, "/", [], .empty, apiTimeout⟩ :=
  ⟨rfl, rfl, rfl, rfl, rfl, rfl, rfl, rfl⟩

/-- C8: the shared axios instance is configured with a 30000 millisecond
timeout and every one of the six frontend operations carries exactly that
timeout — the request timeout of the shared instance is the one
cancellation mechanism every operation is subject to. -/
theorem api_timeout_spec (fileId : String) :
    apiTimeout = 30000
    ∧ ((apiSurface fileId).all fun r => r.timeout == 30000) = true :=
  ⟨rfl, rfl⟩

/-- C4: on success the combined endpoint returns a JSON object carrying
the analysis field, the recommendations field and status success, and the
frontend consumes exactly those two fields of the combined response:
`handleAnalyze` stores both, and its result depends on nothing else in
the response object. -/
theorem combined_response_fields {α β : Type} (fs : Finset String) (file_id : String)
    (a : α) (r : β) (s : AppState α β) (fid : String)
    (resp resp' : JsonResponse α β) (hfid : s.fileId = some fid)
    (h1 : resp.analysis? = resp'.analysis?)
    (h2 : resp.recommendations? = resp'.recommendations?) :
    ((analyze_and_recommend fs file_id (.ok a) (.ok r)).1.analysis? = some a
      ∧ (analyze_and_recommend fs file_id (.ok a) (.ok r)).1.recommendations? = some r
      ∧ (analyze_and_recommend fs file_id (.ok a) (.ok r)).1.status = "success")
    ∧ ((handleAnalyze s (.ok resp)).analysisData = resp.analysis?
      ∧ (handleAnalyze s (.ok resp)).recommendations = resp.recommendations?)
    ∧ handleAnalyze s (.ok resp) = handleAnalyze s (.ok resp') := by
  refine ⟨⟨rfl, rfl, rfl⟩, ⟨?_, ?_⟩, ?_⟩ <;> simp [handleAnalyze, hfid, h1, h2]

/-- A concrete App state sitting on the preview step, used to witness C4
and C9. -/
def appState0 : AppState Nat Nat :=
  ⟨some okImage, some "id1", some 7, none, false, none, "preview"⟩

/-- A concrete success response of the combined endpoint. -/
def resp0 : JsonResponse Nat Nat := ⟨some 1, some 2, none, "success"⟩

/-- Witness for C4: concrete handler results and a concrete state update
consuming them. -/
theorem combined_response_fields_witness :
    ((analyze_and_recommend ({} : Finset String) "abc"
        (.ok (1 : Nat)) (.ok (2 : Nat))).1.analysis? = some 1
      ∧ (analyze_and_recommend ({} : Finset String) "abc"
          (.ok (1 : Nat)) (.ok (2 : Nat))).1.recommendations? = some 2
      ∧ (analyze_and_recommend ({} : Finset String) "abc"
          (.ok (1 : Nat)) (.ok (2 : Nat))).1.status = "success")
    ∧ ((handleAnalyze appState0 (.ok resp0)).analysisData = resp0.analysis?
      ∧ (handleAnalyze appState0 (.ok resp0)).recommendations = resp0.recommendations?)
    ∧ handleAnalyze appState0 (.ok resp0) = handleAnalyze appState0 (.ok resp0) :=
  combined_response_fields {} "abc" 1 2 appState0 "id1" resp0 resp0 rfl rfl rfl

/-- C9: `handleAnalyze` with a non-null fileId is atomic with respect to
result state: on a rejection `analysisData` and `recommendations` are
unchanged, the error message is set (the JavaScript `err.message ||
fallback`), and the step returns to preview; on a resolution both result
fields are set from the response and the step becomes results; in every
case loading is false when the handler completes. -/
theorem handleAnalyze_atomic {α β : Type} (s : AppState α β) (fid : String)
    (e : JsError) (resp : JsonResponse α β) (hfid : s.fileId = some fid) :
    handleAnalyze s (.error e) =
      { s with error := some (jsErrMessage e), currentStep := "preview",
               loading := false }
    ∧ (handleAnalyze s (.error e)).analysisData = s.analysisData
    ∧ (handleAnalyze s (.error e)).recommendations = s.recommendations
    ∧ handleAnalyze s (.ok resp) =
      { s with analysisData := resp.analysis?,
               recommendations := resp.recommendations?,
               error := none, currentStep := "results", loading := false }
    ∧ (∀ o : Except JsError (JsonResponse α β), (handleAnalyze s o).loading = false) := by
  refine ⟨?_, ?_, ?_, ?_, ?_⟩
  · simp [handleAnalyze, hfid]
  · simp [handleAnalyze, hfid]
  · simp [handleAnalyze, hfid]
  · simp [handleAnalyze, hfid]
  · intro o; cases o <;> simp [handleAnalyze, hfid]

/-- A rejection with an empty message, exercising the fallback text. -/
def err0 : JsError := ⟨"", none⟩

/-- Witness for C9: the atomicity property at a concrete state, rejection
and resolution. -/
theorem handleAnalyze_atomic_witness :
    handleAnalyze appState0 (.error err0) =
      { appState0 with error := some (jsErrMessage err0), currentStep := "preview",
                       loading := false }
    ∧ (handleAnalyze appState0 (.error err0)).analysisData = appState0.analysisData
    ∧ (handleAnalyze appState0 (.error err0)).recommendations = appState0.recommendations
    ∧ handleAnalyze appState0 (.ok resp0) =
      { appState0 with analysisData := resp0.analysis?,
                       recommendations := resp0.recommendations?,
                       error := none, currentStep := "results", loading := false }
    ∧ (∀ o : Except JsError (JsonResponse Nat Nat),
        (handleAnalyze appState0 o).loading = false) :=
  handleAnalyze_atomic appState0 "id1" err0 resp0 rfl

/-- C10: `formatFileSize` returns 0 Bytes for an input of 0; the unit
index it selects is floor(log(b)/log(1024)) — stated exactly via the real
base-1024 logarithm, which `fileSizeIndex` realises — and for every byte
count up to but excluding 1024^4 that index stays inside the
['Bytes','KB','MB','GB'] array and the displayed number is b / 1024^i
rounded to two decimals, while from 1024^4 on the index is at least 4 and
the unit lookup falls outside the array. -/
theorem formatFileSize_spec :
    formatFileSize 0 = (0, some "Bytes")
    ∧ (∀ b : Nat, ⌊Real.logb 1024 (b : ℝ)⌋ = (fileSizeIndex b : ℤ))
    ∧ (∀ b : Nat, 1 ≤ b → b < 1024 ^ 4 →
        fileSizeIndex b ≤ 3
        ∧ formatFileSize b =
            (roundTo2 ((b : ℚ) / (1024 : ℚ) ^ fileSizeIndex b), sizes[fileSizeIndex b]?)
        ∧ (sizes[fileSizeIndex b]?).isSome = true)
    ∧ (∀ b : Nat, 1024 ^ 4 ≤ b → 4 ≤ fileSizeIndex b ∧ sizes[fileSizeIndex b]? = none) := by
  refine ⟨rfl, ?_, ?_, ?_⟩
  · intro b
    have hc : ((1024 : ℝ)) = ((1024 : ℕ) : ℝ) := by norm_num
    rw [hc, Real.floor_logb_natCast (Nat.cast_nonneg b), Int.log_natCast]
    rfl
  · intro b hb1 hb2
    have hne : b ≠ 0 := by omega
    have hlt : fileSizeIndex b < 4 := Nat.log_lt_of_lt_pow hne hb2
    have hlen : fileSizeIndex b < sizes.length := by
      have : sizes.length = 4 := rfl
      omega
    refine ⟨by omega, ?_, by simp [List.getElem?_eq_getElem hlen]⟩
    simp [formatFileSize, hne]
  · intro b hb
    have hne : b ≠ 0 := by
      have : (0 : Nat) < 1024 ^ 4 := by positivity
      omega
    have hge : 4 ≤ fileSizeIndex b :=
      (Nat.pow_le_iff_le_log (by norm_num) hne).mp hb
    have hlen : sizes.length ≤ fileSizeIndex b := by
      have : sizes.length = 4 := rfl
      omega
    exact ⟨hge, List.getElem?_eq_none hlen⟩

/-- Witness for C10: concrete byte counts on both sides of the 1024^4
boundary, and the zero case. -/
theorem formatFileSize_spec_witness :
    formatFileSize 0 = (0, some "Bytes")
    ∧ fileSizeIndex 2048 ≤ 3
    ∧ formatFileSize 2048 =
        (roundTo2 ((2048 : ℚ) / (1024 : ℚ) ^ fileSizeIndex 2048),
         sizes[fileSizeIndex 2048]?)
    ∧ 4 ≤ fileSizeIndex (1024 ^ 4)
    ∧ sizes[fileSizeIndex (1024 ^ 4)]? = none := by
  obtain ⟨h0, -, h3, h4⟩ := formatFileSize_spec
  obtain ⟨ha, hb, -⟩ := h3 2048 (by norm_num) (by norm_num)
  obtain ⟨hc, hd⟩ := h4 (1024 ^ 4) le_rfl
  exact ⟨h0, ha, hb, hc, hd⟩

end GlamAI
